import Mathlib

/-!
Verification of the oh-my-stock spike-detection / report pipeline spec
against the repository's code.

The frontend (TypeScript, under src/frontend and the unnamed parts) is
embedded directly.  The backend pipeline (spike detector, similarity
engine, causal synthesizer, report store) is not present in the
repository snapshot; those components are modelled from the spec, as
marked in each doc comment.
-/

namespace OhMyStock

/-! ## Threshold update (frontend StockCard.tsx, handleThresholdChange) -/

/-- MIN_THRESHOLD from StockCard.tsx. -/
def MIN_THRESHOLD : ℚ := 1

/-- MAX_THRESHOLD from StockCard.tsx. -/
def MAX_THRESHOLD : ℚ := 10

/-- STEP from StockCard.tsx (the UI stepper increment). -/
def STEP : ℚ := 1/2

/-- JavaScript Math.round on an exact rational: rounds to the nearest
integer, halves toward positive infinity. -/
def jsRound (x : ℚ) : ℤ := ⌊x + 1/2⌋

/-- The value persisted by handleThresholdChange in StockCard.tsx:
`Math.round(Math.max(MIN_THRESHOLD, Math.min(MAX_THRESHOLD, newVal)) * 10) / 10`. -/
def clampThreshold (newVal : ℚ) : ℚ :=
  (jsRound (max MIN_THRESHOLD (min MAX_THRESHOLD newVal) * 10) : ℚ) / 10

/-- Feedback state set by handleThresholdChange ("success" or "error"). -/
inductive Feedback where
  | success
  | error
deriving DecidableEq, Repr

/-- Observable outcome of one handleThresholdChange call in StockCard.tsx:
the displayed threshold, the feedback flag, the error message, and the
value passed to the onThresholdChange callback (none if it did not fire). -/
structure ThresholdUpdateResult where
  threshold : ℚ
  feedback : Option Feedback
  errorMsg : String
  callbackValue : Option ℚ
deriving DecidableEq

/-- handleThresholdChange from StockCard.tsx: computes the clamped value,
optimistically displays it, persists via watchlistApi.updateThreshold;
on success fires onThresholdChange with the clamped value, on failure
reverts the displayed threshold to its previous value and reports an
error.  `persistOk` is the outcome of the awaited persistence call. -/
def handleThresholdChange (prevVal newVal : ℚ) (persistOk : Bool) :
    ThresholdUpdateResult :=
  let clamped := clampThreshold newVal
  if persistOk then
    { threshold := clamped
      feedback := some .success
      errorMsg := ""
      callbackValue := some clamped }
  else
    { threshold := prevVal
      feedback := some .error
      errorMsg := "연결 실패, 다시 시도해주세요"
      callbackValue := none }

/-! ## Analysis shapes and the report reader
(frontend types/index.ts and the ReportView / hasMultiLayerCauses reader) -/

/-- AnalysisCause from types/index.ts. -/
structure AnalysisCause where
  reason : String
  confidence : String
  impact : String
deriving DecidableEq, Repr

/-- MultiLayerCause from types/index.ts (AnalysisCause plus optional
impact_level). -/
structure MultiLayerCause where
  reason : String
  confidence : String
  impact : String
  impact_level : Option String
deriving DecidableEq, Repr

/-- AnalysisResult from types/index.ts: summary and flat causes always
present, layered fields and outlook/sector optional (undefined when the
row was written in the legacy flat shape).  Outlook and sector impact are
irrelevant to the cause-rendering path and elided. -/
structure AnalysisResult where
  summary : String
  causes : List AnalysisCause
  direct_causes : Option (List MultiLayerCause)
  indirect_causes : Option (List MultiLayerCause)
  macro_factors : Option (List MultiLayerCause)
deriving DecidableEq, Repr

/-- The slice of the Report frontend type consumed by the cause-rendering
path. -/
structure FrontReport where
  analysis : Option AnalysisResult
deriving DecidableEq, Repr

/-- JavaScript truthiness of `xs && xs.length > 0` for an optional list:
undefined is falsy, a present list is tested for non-emptiness. -/
def optListNonempty (o : Option (List MultiLayerCause)) : Bool :=
  match o with
  | none => false
  | some l => decide (0 < l.length)

/-- hasMultiLayerCauses from the reader component: true when the analysis
exists and at least one of direct_causes / indirect_causes / macro_factors
is present and non-empty. -/
def hasMultiLayerCauses (r : FrontReport) : Bool :=
  match r.analysis with
  | none => false
  | some a =>
      optListNonempty a.direct_causes ||
      optListNonempty a.indirect_causes ||
      optListNonempty a.macro_factors

/-- `report.analysis?.causes ?? []` from ReportView. -/
def causesOf (r : FrontReport) : List AnalysisCause :=
  match r.analysis with
  | none => []
  | some a => a.causes

/-- Which cause section ReportView renders. -/
inductive RenderPath where
  | multiLayer
  | flatCauses
  | noCauseSection
deriving DecidableEq, Repr

/-- The cause-section branch of ReportView:
`isMultiLayer ? <MultiLayerCauses/> : causes.length > 0 ? <flat/> : null`. -/
def renderPath (r : FrontReport) : RenderPath :=
  if hasMultiLayerCauses r then .multiLayer
  else if 0 < (causesOf r).length then .flatCauses
  else .noCauseSection

/-! ## Report Store persistence of the analysis column
The backend store is not under src/; it is modelled from the spec. -/

/-- Modelled from the spec: the persisted JSONB analysis column of a
Report row.  The backend Report Store is absent from src/; the column
holds summary plus either the legacy flat `causes` or the current
multi-layer fields, each independently presentable. -/
structure StoredAnalysis where
  summary : String
  causes : Option (List AnalysisCause)
  direct_causes : Option (List MultiLayerCause)
  indirect_causes : Option (List MultiLayerCause)
  macro_factors : Option (List MultiLayerCause)
deriving DecidableEq, Repr

/-- Modelled from the spec: a legacy writer persisted the flat shape
`\x7b summary, causes \x7d` with no layered fields. -/
def persistLegacyAnalysis (s : String) (cs : List AnalysisCause) :
    StoredAnalysis :=
  { summary := s
    causes := some cs
    direct_causes := none
    indirect_causes := none
    macro_factors := none }

/-- The explicit tagged variant of §9: analysis shape resolved at read
time. -/
inductive AnalysisShape where
  | flat (summary : String) (causes : List AnalysisCause)
  | multiLayer (summary : String) (causes : List AnalysisCause)
      (direct indirect mac : List MultiLayerCause)
deriving DecidableEq, Repr

/-- direct_causes of a resolved shape (empty for the legacy flat shape). -/
def AnalysisShape.directCauses : AnalysisShape → List MultiLayerCause
  | .flat _ _ => []
  | .multiLayer _ _ d _ _ => d

/-- indirect_causes of a resolved shape (empty for the legacy flat
shape). -/
def AnalysisShape.indirectCauses : AnalysisShape → List MultiLayerCause
  | .flat _ _ => []
  | .multiLayer _ _ _ i _ => i

/-- macro_factors of a resolved shape (empty for the legacy flat
shape). -/
def AnalysisShape.macroFactors : AnalysisShape → List MultiLayerCause
  | .flat _ _ => []
  | .multiLayer _ _ _ _ m => m

/-- flat causes of a resolved shape. -/
def AnalysisShape.flatCauses : AnalysisShape → List AnalysisCause
  | .flat _ cs => cs
  | .multiLayer _ cs _ _ _ => cs

/-- Modelled from the spec: the Report Store read path (backend, absent
from src/).  It discriminates the analysis shape at read time: absence of
every layered field implies the legacy flat shape; otherwise the current
multi-layer shape is read.  Both shapes are accepted; no structural error
is raised for either. -/
def readAnalysis (s : StoredAnalysis) : Except String AnalysisShape :=
  match s.direct_causes, s.indirect_causes, s.macro_factors with
  | none, none, none => .ok (.flat s.summary (s.causes.getD []))
  | d, i, m =>
      .ok (.multiLayer s.summary (s.causes.getD [])
            (d.getD []) (i.getD []) (m.getD []))

/-- The frontend AnalysisResult produced by serving a resolved shape over
the display API: the legacy shape leaves the layered fields absent. -/
def frontendAnalysisOf : AnalysisShape → AnalysisResult
  | .flat s cs =>
      { summary := s, causes := cs
        direct_causes := none, indirect_causes := none, macro_factors := none }
  | .multiLayer s cs d i m =>
      { summary := s, causes := cs
        direct_causes := some d, indirect_causes := some i
        macro_factors := some m }

/-- Replace the three layered fields of an analysis. -/
def withLayered (a : AnalysisResult)
    (d i m : Option (List MultiLayerCause)) : AnalysisResult :=
  { a with direct_causes := d, indirect_causes := i, macro_factors := m }

/-! ## Similarity Engine
The backend Similarity Engine is not under src/; it is modelled from the
spec (§4.3), with the open-question score weights fixed as documented
constants. -/

/-- A persisted price snapshot (append-only, one per capture): trading-day
index, close price, change relative to prior close in percent, volume. -/
structure PriceSnapshot where
  date : ℕ
  price : ℚ
  change_pct : ℚ
  volume : ℚ
deriving DecidableEq, Repr

/-- Aftermath of a historical case: post-event 1-week and 1-month
cumulative returns and days to recovery (none if the price never
recovered within the window). -/
structure CaseAftermath where
  after_1w_pct : ℚ
  after_1m_pct : ℚ
  recovery_days : Option ℕ
deriving DecidableEq, Repr

/-- A similar historical case (derived, never persisted). -/
structure SimilarCase where
  date : ℕ
  change_pct : ℚ
  volume : ℚ
  similarity_score : ℚ
  trend_1w : List ℚ
  trend_1m : List ℚ
  data_insufficient : Bool
  aftermath : Option CaseAftermath
deriving DecidableEq, Repr

/-- CasesResponse from types/index.ts: the case list plus an optional
explanatory message. -/
structure CasesResponse where
  cases : List SimilarCase
  message : Option String
deriving DecidableEq, Repr

/-- Modelled from the spec: weight of the change-percentage delta in the
similarity score (a documented testable constant, §9 open question). -/
def CHANGE_DELTA_WEIGHT : ℚ := 1

/-- Modelled from the spec: weight of the volume-ratio deviation in the
similarity score (a documented testable constant, §9 open question). -/
def VOLUME_DEV_WEIGHT : ℚ := 1/2

/-- Modelled from the spec: the configurable recency exclusion window of
§4.3, in trading days. -/
def RECENCY_EXCLUSION_DAYS : ℕ := 5

/-- The hard candidate filter band of §4.3: 1.5 percentage points. -/
def SIMILARITY_BAND : ℚ := 3/2

/-- Insert an element into a list sorted ascending by `key`. -/
def insertBy {α β : Type} [LinearOrder β] (key : α → β) (c : α) :
    List α → List α
  | [] => [c]
  | d :: ds =>
      if key c ≤ key d then c :: d :: ds else d :: insertBy key c ds

/-- Insertion sort ascending by `key`. -/
def sortBy {α β : Type} [LinearOrder β] (key : α → β) : List α → List α
  | [] => []
  | c :: cs => insertBy key c (sortBy key cs)

/-- Modelled from the spec: similarity score of a candidate snapshot — a
weighted distance of the change-percentage delta and the volume-ratio
deviation; lower is more similar. -/
def similarityScore (trigger_change_pct avgVolume : ℚ)
    (s : PriceSnapshot) : ℚ :=
  CHANGE_DELTA_WEIGHT * |s.change_pct - trigger_change_pct| +
    VOLUME_DEV_WEIGHT * |s.volume / avgVolume - 1|

/-- Modelled from the spec: build one SimilarCase from a candidate
snapshot — trend_1w / trend_1m as cumulative percentage returns over the
following 5 and 20 trading snapshots, aftermath only when ≥ 20 snapshots
follow, recovery as the first following day at or above the pre-event
level. -/
def mkCase (snapshots : List PriceSnapshot)
    (trigger_change_pct avgVolume : ℚ) (c : PriceSnapshot) : SimilarCase :=
  let fol := sortBy (fun t => t.date)
    (snapshots.filter (fun t => c.date < t.date))
  let cumRet := fun (t : PriceSnapshot) => (t.price / c.price - 1) * 100
  let preEvent := c.price / (1 + c.change_pct / 100)
  { date := c.date
    change_pct := c.change_pct
    volume := c.volume
    similarity_score := similarityScore trigger_change_pct avgVolume c
    trend_1w := (fol.take 5).map cumRet
    trend_1m := (fol.take 20).map cumRet
    data_insufficient := decide (fol.length < 20)
    aftermath :=
      if 20 ≤ fol.length then
        some { after_1w_pct := cumRet ((fol.take 5).getLastD c)
               after_1m_pct := cumRet ((fol.take 20).getLastD c)
               recovery_days :=
                 ((fol.take 20).findIdx?
                   (fun t => preEvent ≤ t.price)).map (· + 1) }
      else none }

/-- Modelled from the spec: the candidate scan of §4.3 — historical
snapshots strictly before the trigger date minus the recency exclusion
window, restricted to the hard 1.5-point change-percentage band. -/
def similarCandidates (snapshots : List PriceSnapshot)
    (trigger_change_pct : ℚ) (trigger_date : ℕ) : List PriceSnapshot :=
  (snapshots.filter
      (fun s => s.date + RECENCY_EXCLUSION_DAYS < trigger_date)).filter
    (fun s => |s.change_pct - trigger_change_pct| ≤ SIMILARITY_BAND)

/-- Modelled from the spec: every candidate turned into a scored
SimilarCase, the volume ratio taken against the candidates' average
volume. -/
def scoredCases (snapshots : List PriceSnapshot)
    (trigger_change_pct : ℚ) (trigger_date : ℕ) : List SimilarCase :=
  let cands := similarCandidates snapshots trigger_change_pct trigger_date
  let avgVolume := (cands.map (fun s => s.volume)).sum / (cands.length : ℚ)
  cands.map (mkCase snapshots trigger_change_pct avgVolume)

/-- Modelled from the spec: the 3 lowest-scoring candidates, ascending by
similarity score. -/
def topCases (snapshots : List PriceSnapshot)
    (trigger_change_pct : ℚ) (trigger_date : ℕ) : List SimilarCase :=
  (sortBy (fun c => c.similarity_score)
    (scoredCases snapshots trigger_change_pct trigger_date)).take 3

/-- Modelled from the spec: the total body of findSimilarCases — when no
candidate exists, an empty list with the explanatory message, otherwise
the top cases with no message. -/
def similarCasesResult (snapshots : List PriceSnapshot)
    (trigger_change_pct : ℚ) (trigger_date : ℕ) : CasesResponse :=
  if (topCases snapshots trigger_change_pct trigger_date).isEmpty then
    { cases := [], message := some "insufficient history" }
  else
    { cases := topCases snapshots trigger_change_pct trigger_date
      message := none }

/-- Modelled from the spec: findSimilarCases never raises; every input
yields a successful CasesResponse. -/
def findSimilarCases (snapshots : List PriceSnapshot)
    (trigger_change_pct : ℚ) (trigger_date : ℕ) :
    Except String CasesResponse :=
  .ok (similarCasesResult snapshots trigger_change_pct trigger_date)

/-- A one-snapshot history used to instantiate the similarity-engine
theorems at a concrete input. -/
def demoSnaps : List PriceSnapshot :=
  [{ date := 10, price := 100, change_pct := 4, volume := 1000 }]

/-- The single case the similarity engine derives from demoSnaps for a
4% trigger on day 100. -/
def demoCase : SimilarCase :=
  { date := 10, change_pct := 4, volume := 1000, similarity_score := 0
    trend_1w := [], trend_1m := [], data_insufficient := true
    aftermath := none }

/-! ## Report status state machine
The backend Report Store is not under src/; the state machine is
modelled from the spec (§4.6). -/

/-- Report status: pending, generating, completed, failed. -/
inductive ReportStatus where
  | pending
  | generating
  | completed
  | failed
deriving DecidableEq, Repr

/-- The orchestration events that drive a Report's status. -/
inductive ReportEvent where
  | orchestrationStarts
  | synthesisSucceeds
  | stageFailure
  | superseded
deriving DecidableEq, Repr

/-- Modelled from the spec: the Report status state machine of §4.6 —
pending moves to generating when orchestration starts, generating moves
to completed on synthesis success and to failed on unrecoverable stage
failure, pending or generating move to failed when superseded by a
larger same-day trigger; completed and failed are terminal, and every
other combination leaves the status unchanged. -/
def stepStatus (s : ReportStatus) (e : ReportEvent) : ReportStatus :=
  match s, e with
  | .pending, .orchestrationStarts => .generating
  | .pending, .superseded => .failed
  | .generating, .synthesisSucceeds => .completed
  | .generating, .stageFailure => .failed
  | .generating, .superseded => .failed
  | s, _ => s

/-! ## Spike detector and same-day trigger dedup / supersede
The backend Spike Detector is not under src/; it is modelled from the
spec (§4.2, §5, §9): one Report row per (instrument, trigger date),
carrying a generation counter; superseding bumps the generation on the
same row and records the displaced generation. -/

/-- The single Report row for one (instrument, trigger date) idempotency
key: generation counter, the triggering change percentage of the live
generation, and the row status. -/
structure ReportRow where
  generation : ℕ
  trigger_change_pct : ℚ
  status : ReportStatus
deriving DecidableEq, Repr

/-- Detector state for one (instrument, trigger date): the Report row if
one was created, how many rows were ever created for the key, and the
change percentages of superseded generations (each terminal, recorded as
failed with reason superseded, never completed). -/
structure DetectorState where
  row : Option ReportRow
  rowsCreated : ℕ
  supersededGens : List ℚ
deriving DecidableEq, Repr

/-- Detector state before any snapshot of the day is evaluated. -/
def initDetector : DetectorState :=
  { row := none, rowsCreated := 0, supersededGens := [] }

/-- Modelled from the spec: evaluation of one snapshot's change
percentage against one subscriber threshold for a fixed
(instrument, trigger date).  A breach is abs(change_pct) ≥ threshold.
The first breach creates the pending Report row; while the row is in
flight, a later breach supersedes the live generation only when its
absolute change percentage is strictly larger (the displaced generation
is recorded and the generation counter bumped), and is silently
suppressed otherwise, so on equal magnitudes the earliest trigger wins;
once the row is terminal a same-day trigger is rejected. -/
def detectStep (threshold : ℚ) (st : DetectorState)
    (change_pct : ℚ) : DetectorState :=
  if |change_pct| < threshold then st
  else
    match st.row with
    | none =>
        { row := some { generation := 0
                        trigger_change_pct := change_pct
                        status := .pending }
          rowsCreated := st.rowsCreated + 1
          supersededGens := st.supersededGens }
    | some r =>
        if r.status = .completed ∨ r.status = .failed then st
        else if |r.trigger_change_pct| < |change_pct| then
          { row := some { generation := r.generation + 1
                          trigger_change_pct := change_pct
                          status := .pending }
            rowsCreated := st.rowsCreated
            supersededGens := st.supersededGens ++ [r.trigger_change_pct] }
        else st

/-- Modelled from the spec: the detector run over one day's snapshot
change percentages for one (instrument, threshold). -/
def runDetector (threshold : ℚ) (changes : List ℚ) : DetectorState :=
  changes.foldl (detectStep threshold) initDetector

/-! ## Orchestration barrier and causal synthesis
The backend orchestrator and Causal Synthesizer are not under src/; they
are modelled from the spec (§4.4, §4.5, §5, §7). -/

/-- A ReportSource row (news/disclosure item attached to a Report). -/
structure ReportSourceRow where
  source_type : String
  title : String
  url : String
deriving DecidableEq, Repr

/-- Modelled from the spec: outcome of the context-gathering stage —
provider failure (degrades to no sources) or a list of items. -/
inductive ContextOutcome where
  | failure
  | items (xs : List ReportSourceRow)
deriving DecidableEq, Repr

/-- Modelled from the spec: outcome of one reasoning-service call —
a timeout, a structured result conforming to the schema, or malformed /
unparseable output with whatever partial text was produced. -/
inductive ReasonOutcome where
  | timeout
  | structured (a : AnalysisResult)
  | malformed (raw : String)
deriving DecidableEq, Repr

/-- Modelled from the spec: bounded retry of the reasoning call — a
timeout is retried once, any non-timeout first response is used
directly. -/
def synthesizeOutcome (first second : ReasonOutcome) : ReasonOutcome :=
  match first with
  | .timeout => second
  | o => o

/-- Modelled from the spec: the minimal flat fallback summary the
synthesizer degrades to on malformed output — the partial text as the
summary, no causes, no layered fields. -/
def fallbackSummary (raw : String) : AnalysisResult :=
  { summary := raw, causes := []
    direct_causes := none, indirect_causes := none, macro_factors := none }

/-- The observable final state of one Report after the synthesis
barrier. -/
structure FinalReport where
  status : ReportStatus
  sources : List ReportSourceRow
  analysis : Option AnalysisResult
  failure_reason : Option String
deriving DecidableEq, Repr

/-- Modelled from the spec: the synthesis barrier — context gathering
and similarity run first and may fail independently; the reasoning call
is retried once on timeout; a double timeout fails the Report with a
reason code, a structured response completes it with the synthesized
analysis, malformed output completes it with the minimal flat fallback;
a context failure only omits the sources. -/
def runPipeline (ctx : ContextOutcome) (first second : ReasonOutcome) :
    FinalReport :=
  let sources := match ctx with
    | .failure => []
    | .items xs => xs
  match synthesizeOutcome first second with
  | .timeout =>
      { status := .failed, sources := sources, analysis := none
        failure_reason := some "reasoning_timeout" }
  | .structured a =>
      { status := .completed, sources := sources, analysis := some a
        failure_reason := none }
  | .malformed raw =>
      { status := .completed, sources := sources
        analysis := some (fallbackSummary raw), failure_reason := none }

end OhMyStock

namespace OhMyStock

/-! ## Helper lemmas -/

lemma clampThreshold_eval_12 : clampThreshold 12 = 10 := by
  unfold clampThreshold jsRound MIN_THRESHOLD MAX_THRESHOLD
  norm_num

lemma clampThreshold_eval_13_10 : clampThreshold (13/10) = 13/10 := by
  unfold clampThreshold jsRound MIN_THRESHOLD MAX_THRESHOLD
  norm_num

lemma clampThreshold_lower (v : ℚ) : 1 ≤ clampThreshold v := by
  unfold clampThreshold jsRound MIN_THRESHOLD MAX_THRESHOLD
  rw [le_div_iff₀ (by norm_num : (0:ℚ) < 10)]
  have h1 : (1:ℚ) ≤ max 1 (min 10 v) := le_max_left 1 (min 10 v)
  have h2 : (10:ℤ) ≤ ⌊max 1 (min 10 v) * 10 + 1/2⌋ := by
    rw [Int.le_floor]
    push_cast
    nlinarith
  calc (1:ℚ) * 10 = ((10:ℤ):ℚ) := by norm_num
    _ ≤ (⌊max 1 (min 10 v) * 10 + 1/2⌋ : ℚ) := by exact_mod_cast h2

lemma clampThreshold_upper (v : ℚ) : clampThreshold v ≤ 10 := by
  unfold clampThreshold jsRound MIN_THRESHOLD MAX_THRESHOLD
  rw [div_le_iff₀ (by norm_num : (0:ℚ) < 10)]
  have h1 : max 1 (min 10 v) ≤ 10 :=
    max_le (by norm_num) (min_le_left 10 v)
  have h2 : ⌊max 1 (min 10 v) * 10 + 1/2⌋ ≤ (100:ℤ) := by
    have hmono : ⌊max 1 (min 10 v) * 10 + 1/2⌋ ≤ ⌊(201/2 : ℚ)⌋ :=
      Int.floor_le_floor (by nlinarith)
    have hval : ⌊(201/2 : ℚ)⌋ = (100:ℤ) := by
      rw [Int.floor_eq_iff]
      norm_num
    omega
  calc (↑⌊max 1 (min 10 v) * 10 + 1/2⌋ : ℚ) ≤ ((100:ℤ):ℚ) := by exact_mod_cast h2
    _ = 10 * 10 := by norm_num

lemma optListNonempty_eq_true (o : Option (List MultiLayerCause)) :
    optListNonempty o = true ↔ ∃ l, o = some l ∧ l ≠ [] := by
  cases o with
  | none => simp [optListNonempty]
  | some l => simp [optListNonempty, List.length_pos]

/-! ## Claim theorems: threshold update -/

/-- C1 counterexample: the claim says the threshold-update operation
snaps the requested value to the nearest 0.5 step, so that 1.3 persists
as 1.5; the code's handleThresholdChange rounds to the nearest 0.1
instead and persists 1.3 unchanged. -/
theorem C1_counterexample : ¬ (clampThreshold (13/10) = 3/2) := by
  rw [clampThreshold_eval_13_10]
  norm_num

/-- C1 (amended): for every requested threshold value, the
threshold-update operation clamps the value to [1.0, 10.0] and rounds it
to the nearest 0.1 step before persisting; in particular, setting the
threshold to 12 yields 10.0, and setting it to 1.3 yields 1.3. -/
theorem C1_threshold_clamping :
    (∀ v : ℚ, 1 ≤ clampThreshold v ∧ clampThreshold v ≤ 10 ∧
      ∃ n : ℤ, clampThreshold v = (n : ℚ) / 10) ∧
    clampThreshold 12 = 10 ∧ clampThreshold (13/10) = 13/10 := by
  refine ⟨fun v => ⟨clampThreshold_lower v, clampThreshold_upper v, ?_⟩,
    clampThreshold_eval_12, clampThreshold_eval_13_10⟩
  exact ⟨jsRound (max MIN_THRESHOLD (min MAX_THRESHOLD v) * 10), rfl⟩

/-- C9: the threshold update is atomic with respect to the displayed
threshold: when persistence fails the threshold reverts to its previous
value, an error is reported and the change callback does not fire; the
callback fires with the clamped value exactly when persistence
succeeds. -/
theorem C9_threshold_update_atomic :
    ∀ prev v : ℚ,
      (handleThresholdChange prev v false).threshold = prev ∧
      (handleThresholdChange prev v false).feedback = some .error ∧
      (handleThresholdChange prev v false).errorMsg ≠ "" ∧
      (handleThresholdChange prev v false).callbackValue = none ∧
      (handleThresholdChange prev v true).threshold = clampThreshold v ∧
      (handleThresholdChange prev v true).feedback = some .success ∧
      (handleThresholdChange prev v true).callbackValue =
        some (clampThreshold v) := by
  intro prev v
  refine ⟨rfl, rfl, ?_, rfl, rfl, rfl, rfl⟩
  simp [handleThresholdChange]

/-! ## Claim theorems: analysis shapes and the reader -/

/-- C2: a Report persisted in the legacy flat analysis shape (causes
present, no layered fields) reads back without structural error as the
flat shape: direct_causes, indirect_causes and macro_factors all empty
and causes populated; the reader treats the absence of layered fields as
the legacy shape, and the frontend cause reader takes the legacy path on
the served result. -/
theorem C2_legacy_round_trip :
    ∀ (s : String) (cs : List AnalysisCause), cs ≠ [] →
      ∃ shape, readAnalysis (persistLegacyAnalysis s cs) = .ok shape ∧
        shape.directCauses = [] ∧ shape.indirectCauses = [] ∧
        shape.macroFactors = [] ∧ shape.flatCauses = cs ∧
        shape.flatCauses ≠ [] ∧
        hasMultiLayerCauses ⟨some (frontendAnalysisOf shape)⟩ = false := by
  intro s cs h
  exact ⟨.flat s cs, rfl, rfl, rfl, rfl, rfl, h, rfl⟩

/-- Witness for C2 at a concrete legacy row. -/
theorem C2_witness :
    ([({ reason := "earnings miss", confidence := "high", impact := "down" } :
        AnalysisCause)] ≠ ([] : List AnalysisCause)) ∧
    ∃ shape,
      readAnalysis (persistLegacyAnalysis "summary"
        [{ reason := "earnings miss", confidence := "high", impact := "down" }]) =
        .ok shape ∧
      shape.directCauses = [] ∧ shape.indirectCauses = [] ∧
      shape.macroFactors = [] ∧
      shape.flatCauses =
        [{ reason := "earnings miss", confidence := "high", impact := "down" }] ∧
      shape.flatCauses ≠ [] ∧
      hasMultiLayerCauses ⟨some (frontendAnalysisOf shape)⟩ = false :=
  ⟨by decide,
    C2_legacy_round_trip "summary"
      [{ reason := "earnings miss", confidence := "high", impact := "down" }]
      (by decide)⟩

/-- C10: the reader selects the multi-layer rendering path exactly when
some layered field is present and non-empty; an analysis whose layered
fields are all present but empty renders identically to one with the
fields absent, via the legacy flat-causes path whenever flat causes
exist. -/
theorem C10_multilayer_path_iff :
    (∀ r : FrontReport, hasMultiLayerCauses r = true ↔
      ∃ a, r.analysis = some a ∧
        ((∃ l, a.direct_causes = some l ∧ l ≠ []) ∨
         (∃ l, a.indirect_causes = some l ∧ l ≠ []) ∨
         (∃ l, a.macro_factors = some l ∧ l ≠ []))) ∧
    (∀ a : AnalysisResult,
      renderPath ⟨some (withLayered a (some []) (some []) (some []))⟩ =
        renderPath ⟨some (withLayered a none none none)⟩ ∧
      renderPath ⟨some (withLayered a (some []) (some []) (some []))⟩ =
        (if a.causes.isEmpty then RenderPath.noCauseSection
         else RenderPath.flatCauses)) := by
  constructor
  · intro r
    cases hr : r.analysis with
    | none => simp [hasMultiLayerCauses, hr]
    | some a =>
        simp only [hasMultiLayerCauses, hr, Bool.or_eq_true,
          optListNonempty_eq_true, Option.some.injEq]
        constructor
        · intro h
          exact ⟨a, rfl, or_assoc.mp h⟩
        · rintro ⟨a', rfl, h⟩
          exact or_assoc.mpr h
  · intro a
    cases hc : a.causes <;>
      simp [renderPath, hasMultiLayerCauses, causesOf, optListNonempty,
        withLayered, hc]

/-! ## Claim theorems: Similarity Engine -/

lemma mem_insertBy {α β : Type} [LinearOrder β] (key : α → β) (c x : α)
    (l : List α) : x ∈ insertBy key c l ↔ x = c ∨ x ∈ l := by
  induction l with
  | nil => simp [insertBy]
  | cons d ds ih =>
      by_cases h : key c ≤ key d
      · simp [insertBy, h]
      · simp [insertBy, h, ih]
        tauto

lemma pairwise_insertBy {α β : Type} [LinearOrder β] (key : α → β)
    (c : α) (l : List α)
    (hl : l.Pairwise (fun x y => key x ≤ key y)) :
    (insertBy key c l).Pairwise (fun x y => key x ≤ key y) := by
  induction l with
  | nil => simp [insertBy]
  | cons d ds ih =>
      rcases List.pairwise_cons.mp hl with ⟨hd, hds⟩
      by_cases h : key c ≤ key d
      · simp only [insertBy, if_pos h]
        refine List.pairwise_cons.mpr ⟨?_, hl⟩
        intro x hx
        rcases List.mem_cons.mp hx with rfl | hx'
        · exact h
        · exact le_trans h (hd x hx')
      · simp only [insertBy, if_neg h]
        refine List.pairwise_cons.mpr ⟨?_, ih hds⟩
        intro x hx
        rcases (mem_insertBy key c x ds).mp hx with rfl | hx'
        · exact le_of_not_le h
        · exact hd x hx'

lemma sorted_sortBy {α β : Type} [LinearOrder β] (key : α → β)
    (l : List α) :
    (sortBy key l).Pairwise (fun x y => key x ≤ key y) := by
  induction l with
  | nil => simp [sortBy]
  | cons c cs ih => exact pairwise_insertBy key c (sortBy key cs) ih

lemma mem_sortBy {α β : Type} [LinearOrder β] (key : α → β) (x : α)
    (l : List α) : x ∈ sortBy key l ↔ x ∈ l := by
  induction l with
  | nil => simp [sortBy]
  | cons c cs ih => simp [sortBy, mem_insertBy, ih]

lemma similarCasesResult_cases (snaps : List PriceSnapshot) (pct : ℚ)
    (d : ℕ) :
    (similarCasesResult snaps pct d).cases = topCases snaps pct d := by
  unfold similarCasesResult
  by_cases h : (topCases snaps pct d).isEmpty
  · rw [if_pos h]
    exact (List.isEmpty_iff.mp h).symm
  · rw [if_neg h]

/-- C3: with zero historical snapshots besides the trigger itself,
findSimilarCases returns the successful result with an empty case list
and the message "insufficient history"; on every input it returns a
successful result, never an error. -/
theorem C3_insufficient_history :
    (∀ (trig : PriceSnapshot) (pct : ℚ),
      findSimilarCases [trig] pct trig.date =
        .ok { cases := [], message := some "insufficient history" }) ∧
    (∀ (snaps : List PriceSnapshot) (pct : ℚ) (d : ℕ),
      findSimilarCases snaps pct d =
        .ok (similarCasesResult snaps pct d)) := by
  constructor
  · intro trig pct
    have h : ¬ (trig.date + RECENCY_EXCLUSION_DAYS < trig.date) := by omega
    simp [findSimilarCases, similarCasesResult, topCases, scoredCases,
      similarCandidates, sortBy, h]
  · intro snaps pct d
    rfl

/-- C7: for every history, trigger change percentage and trigger date,
the similar-cases result contains at most 3 cases, sorted ascending by
similarity score, and every returned case stems from a historical
snapshot whose change percentage lies within 1.5 points of the
trigger's. -/
theorem C7_band_top3_ascending :
    ∀ (snaps : List PriceSnapshot) (pct : ℚ) (d : ℕ),
      (similarCasesResult snaps pct d).cases.length ≤ 3 ∧
      (similarCasesResult snaps pct d).cases.Pairwise
        (fun x y => x.similarity_score ≤ y.similarity_score) ∧
      ∀ c ∈ (similarCasesResult snaps pct d).cases,
        ∃ s ∈ snaps, c.date = s.date ∧ c.change_pct = s.change_pct ∧
          |s.change_pct - pct| ≤ 3/2 := by
  intro snaps pct d
  rw [similarCasesResult_cases]
  refine ⟨?_, ?_, ?_⟩
  · exact List.length_take_le 3 _
  · exact List.Pairwise.sublist (List.take_sublist 3 _)
      (sorted_sortBy (fun c : SimilarCase => c.similarity_score)
        (scoredCases snaps pct d))
  · intro c hc
    have hc1 : c ∈ sortBy (fun c => c.similarity_score)
        (scoredCases snaps pct d) :=
      List.mem_of_mem_take hc
    have hc2 : c ∈ scoredCases snaps pct d :=
      (mem_sortBy _ c _).mp hc1
    rcases List.mem_map.mp hc2 with ⟨s, hs, rfl⟩
    rcases List.mem_filter.mp hs with ⟨hs1, hband⟩
    rcases List.mem_filter.mp hs1 with ⟨hs2, -⟩
    refine ⟨s, hs2, rfl, rfl, ?_⟩
    simpa [SIMILARITY_BAND] using of_decide_eq_true hband

lemma demoCases_eq : (similarCasesResult demoSnaps 4 100).cases = [demoCase] := by
  have hcand : similarCandidates demoSnaps 4 100 = demoSnaps := by
    unfold similarCandidates demoSnaps RECENCY_EXCLUSION_DAYS SIMILARITY_BAND
    norm_num [List.filter]
  have hscored : scoredCases demoSnaps 4 100 = [demoCase] := by
    unfold scoredCases
    rw [hcand]
    unfold demoSnaps mkCase similarityScore demoCase
    unfold CHANGE_DELTA_WEIGHT VOLUME_DEV_WEIGHT
    norm_num [List.filter, sortBy]
  have htop : topCases demoSnaps 4 100 = [demoCase] := by
    unfold topCases
    rw [hscored]
    rfl
  unfold similarCasesResult
  rw [htop]
  rfl

/-- Witness for C7 at a concrete one-candidate history. -/
theorem C7_witness :
    demoCase ∈ (similarCasesResult demoSnaps 4 100).cases ∧
    ∃ s ∈ demoSnaps, demoCase.date = s.date ∧
      demoCase.change_pct = s.change_pct ∧ |s.change_pct - (4:ℚ)| ≤ 3/2 :=
  ⟨by rw [demoCases_eq]; exact List.mem_singleton.mpr rfl,
   (C7_band_top3_ascending demoSnaps 4 100).2.2 demoCase
     (by rw [demoCases_eq]; exact List.mem_singleton.mpr rfl)⟩

/-! ## Claim theorems: status machine, detector, pipeline -/

lemma detectStep_row_isSome (θ : ℚ) (st : DetectorState) (t : ℚ)
    (h : st.row.isSome) : (detectStep θ st t).row.isSome := by
  unfold detectStep
  by_cases hb : |t| < θ
  · simpa [hb]
  · rcases hr : st.row with _ | r
    · rw [hr] at h
      simp at h
    · by_cases ht : r.status = .completed ∨ r.status = .failed
      · simp [hb, hr, ht]
      · by_cases hlt : |r.trigger_change_pct| < |t| <;>
          simp [hb, hr, ht, hlt]

lemma detectStep_breach_isSome (θ : ℚ) (st : DetectorState) (t : ℚ)
    (h : θ ≤ |t|) : (detectStep θ st t).row.isSome := by
  unfold detectStep
  have hb : ¬ |t| < θ := not_lt.mpr h
  rcases hr : st.row with _ | r
  · simp [hb, hr]
  · by_cases ht : r.status = .completed ∨ r.status = .failed
    · simp [hb, hr, ht]
    · by_cases hlt : |r.trigger_change_pct| < |t| <;>
        simp [hb, hr, ht, hlt]

lemma foldl_detect_isSome (θ : ℚ) :
    ∀ (l : List ℚ) (st : DetectorState), st.row.isSome →
      (l.foldl (detectStep θ) st).row.isSome
  | [], _, h => h
  | a :: as, st, h =>
      foldl_detect_isSome θ as _ (detectStep_row_isSome θ st a h)

lemma foldl_detect_breach_isSome (θ : ℚ) :
    ∀ (l : List ℚ) (st : DetectorState), (∃ t ∈ l, θ ≤ |t|) →
      (l.foldl (detectStep θ) st).row.isSome
  | [], _, h => by
      rcases h with ⟨t, ht, -⟩
      simp at ht
  | a :: as, st, h => by
      rcases h with ⟨t, ht, hθ⟩
      rcases List.mem_cons.mp ht with rfl | ht'
      · exact foldl_detect_isSome θ as _ (detectStep_breach_isSome θ st t hθ)
      · exact foldl_detect_breach_isSome θ as _ ⟨t, ht', hθ⟩

lemma detectStep_created (θ t : ℚ) (st : DetectorState)
    (h : st.rowsCreated = if st.row.isSome then 1 else 0) :
    (detectStep θ st t).rowsCreated =
      if (detectStep θ st t).row.isSome then 1 else 0 := by
  unfold detectStep
  by_cases hb : |t| < θ
  · simpa [hb]
  · rcases hr : st.row with _ | r
    · rw [hr] at h
      simp at h
      simp [hb, hr, h]
    · rw [hr] at h
      simp at h
      by_cases ht : r.status = .completed ∨ r.status = .failed
      · simp [hb, hr, ht, h]
      · by_cases hlt : |r.trigger_change_pct| < |t| <;>
          simp [hb, hr, ht, hlt, h]

lemma foldl_detect_created (θ : ℚ) :
    ∀ (l : List ℚ) (st : DetectorState),
      st.rowsCreated = (if st.row.isSome then 1 else 0) →
      (l.foldl (detectStep θ) st).rowsCreated =
        if (l.foldl (detectStep θ) st).row.isSome then 1 else 0
  | [], _, h => h
  | a :: as, st, h =>
      foldl_detect_created θ as _ (detectStep_created θ a st h)

/-- C4: of two same-day triggers at 4.0% and 6.0%, the surviving Report
row reflects 6.0% and the 4.0% generation is recorded as superseded
(terminal, never completed); in general a breach supersedes the in-flight
generation exactly when its absolute change percentage is strictly
larger, and on equal magnitudes the state is unchanged, so the earliest
trigger wins. -/
theorem C4_supersede_semantics :
    (runDetector 3 [4, 6]).row =
      some { generation := 1, trigger_change_pct := 6,
             status := .pending } ∧
    (runDetector 3 [4, 6]).supersededGens = [4] ∧
    (∀ (θ : ℚ) (st : DetectorState) (r : ReportRow) (t : ℚ),
      st.row = some r →
      ¬ (r.status = .completed ∨ r.status = .failed) →
      θ ≤ |t| →
      (|r.trigger_change_pct| < |t| →
        (detectStep θ st t).row =
          some { generation := r.generation + 1, trigger_change_pct := t,
                 status := .pending } ∧
        (detectStep θ st t).supersededGens =
          st.supersededGens ++ [r.trigger_change_pct]) ∧
      (|t| ≤ |r.trigger_change_pct| → detectStep θ st t = st)) := by
  refine ⟨by decide, by decide, ?_⟩
  intro θ st r t hrow hterm hθ
  have hb : ¬ |t| < θ := not_lt.mpr hθ
  constructor
  · intro hlt
    unfold detectStep
    simp [hb, hrow, hterm, hlt]
  · intro hle
    have hnlt : ¬ |r.trigger_change_pct| < |t| := not_lt.mpr hle
    unfold detectStep
    simp [hb, hrow, hterm, hnlt]

/-- Witness for the general supersede conditions of C4 at a concrete
in-flight state. -/
theorem C4_witness :
    (detectStep 3
      { row := some { generation := 0, trigger_change_pct := 4,
                      status := .pending }
        rowsCreated := 1, supersededGens := [] } 6).row =
      some { generation := 1, trigger_change_pct := 6,
             status := .pending } ∧
    (detectStep 3
      { row := some { generation := 0, trigger_change_pct := 4,
                      status := .pending }
        rowsCreated := 1, supersededGens := [] } 6).supersededGens =
      [] ++ [4] :=
  (C4_supersede_semantics.2.2 3 _
    { generation := 0, trigger_change_pct := 4, status := .pending } 6
    rfl (by decide) (by norm_num)).1 (by norm_num)

/-- C5: any same-day snapshot sequence with at least one threshold
breach creates exactly one Report row for the (instrument, date) key,
and every reachable detector state holds at most one Report row for the
key. -/
theorem C5_one_report_per_day :
    (∀ (θ : ℚ) (changes : List ℚ), (∃ t ∈ changes, θ ≤ |t|) →
      (runDetector θ changes).rowsCreated = 1) ∧
    (∀ (θ : ℚ) (changes : List ℚ),
      (runDetector θ changes).rowsCreated ≤ 1) := by
  constructor
  · intro θ changes h
    have hinv := foldl_detect_created θ changes initDetector rfl
    have hsome := foldl_detect_breach_isSome θ changes initDetector h
    unfold runDetector
    rw [hinv]
    simp [hsome]
  · intro θ changes
    have hinv := foldl_detect_created θ changes initDetector rfl
    unfold runDetector
    rw [hinv]
    split <;> omega

/-- Witness for C5 on a concrete elevated sequence (threshold 3%, the
change stays above it across three snapshots). -/
theorem C5_witness :
    (∃ t ∈ [(4:ℚ), 5, 4], (3:ℚ) ≤ |t|) ∧
    (runDetector 3 [4, 5, 4]).rowsCreated = 1 :=
  ⟨⟨4, by norm_num, by norm_num⟩,
   C5_one_report_per_day.1 3 [4, 5, 4] ⟨4, by norm_num, by norm_num⟩⟩

/-- C6: the Report status machine is monotonic — completed and failed
are terminal under every event (and every event sequence), and no
transition produces pending from any other status. -/
theorem C6_status_terminal_monotonic :
    (∀ e : ReportEvent, stepStatus .completed e = .completed) ∧
    (∀ e : ReportEvent, stepStatus .failed e = .failed) ∧
    (∀ es : List ReportEvent,
      es.foldl stepStatus .completed = .completed) ∧
    (∀ es : List ReportEvent, es.foldl stepStatus .failed = .failed) ∧
    (∀ (s : ReportStatus) (e : ReportEvent),
      stepStatus s e = .pending → s = .pending) := by
  refine ⟨fun e => by cases e <;> rfl, fun e => by cases e <;> rfl,
    ?_, ?_, fun s e => by cases s <;> cases e <;> decide⟩
  · intro es
    induction es with
    | nil => rfl
    | cons a as ih =>
        have ha : stepStatus .completed a = .completed := by
          cases a <;> rfl
        simpa [List.foldl_cons, ha] using ih
  · intro es
    induction es with
    | nil => rfl
    | cons a as ih =>
        have ha : stepStatus .failed a = .failed := by
          cases a <;> rfl
        simpa [List.foldl_cons, ha] using ih

/-- Witness for C6's no-regression implication at a concrete status and
event. -/
theorem C6_witness :
    stepStatus .completed .superseded = .completed ∧
    ReportStatus.pending = .pending :=
  ⟨C6_status_terminal_monotonic.1 .superseded,
   C6_status_terminal_monotonic.2.2.2.2 .pending .synthesisSucceeds rfl⟩

/-- C8: a reasoning call that times out on both attempts fails the
Report; a successful reasoning call with a failed context-gathering call
completes the Report with sources omitted and the synthesized causes
retained; malformed synthesis output alone never fails the Report, which
completes with the minimal flat fallback summary holding the partial
text. -/
theorem C8_degradation :
    (∀ ctx : ContextOutcome,
      (runPipeline ctx .timeout .timeout).status = .failed) ∧
    (∀ (a : AnalysisResult) (second : ReasonOutcome),
      (runPipeline .failure (.structured a) second).status = .completed ∧
      (runPipeline .failure (.structured a) second).sources = [] ∧
      (runPipeline .failure (.structured a) second).analysis = some a ∧
      ((runPipeline .failure (.structured a) second).analysis.map
        (fun x => x.causes)) = some a.causes) ∧
    (∀ (ctx : ContextOutcome) (raw : String) (second : ReasonOutcome),
      (runPipeline ctx (.malformed raw) second).status = .completed ∧
      (runPipeline ctx (.malformed raw) second).analysis =
        some (fallbackSummary raw) ∧
      (fallbackSummary raw).summary = raw) := by
  refine ⟨?_, ?_, ?_⟩
  · intro ctx
    cases ctx <;> rfl
  · intro a second
    exact ⟨rfl, rfl, rfl, rfl⟩
  · intro ctx raw second
    cases ctx <;> exact ⟨rfl, rfl, rfl⟩

end OhMyStock
